import Mathlib

/-!
Verification of the fused attention primitives in
`colossalai/kernel/triton/ops.py` (shallow embedding).

The embedding translates the Python orchestrator code directly.  The two
kernel files it imports (`qkv_matmul_kernel.py`, `softmax_kernel.py`) are not
part of the sources, so the kernels themselves are modelled from the design
document (each such definition carries a doc comment starting with
`Modelled from the spec:`).  Machine floating point is replaced by exact
rationals; the data-type (precision) bookkeeping of the orchestrator is
tracked by a separate, explicit dtype-flow embedding.
-/

/-! ## Power-of-two padding and warp bucketing (ops.py lines 75-82 and 331-338) -/

/-- Fuel-driven ceiling base-2 logarithm: `clog2Fuel fuel n` is the least `e`
with `n ≤ 2 ^ e`, provided `n ≤ fuel`.  Structural recursion on the fuel keeps
the definition kernel-reducible. -/
def clog2Fuel : ℕ → ℕ → ℕ
  | 0, _ => 0
  | fuel + 1, n => if n ≤ 1 then 0 else clog2Fuel fuel ((n + 1) / 2) + 1

/-- Ceiling base-2 logarithm (least `e` with `n ≤ 2 ^ e`). -/
def clog2 (n : ℕ) : ℕ := clog2Fuel n n

/-- `triton.next_power_of_2`: the smallest power of two that is at least `n`
(collaborator helper used by the dispatch code; for `n = 0` the downstream
`max` with 2 makes any difference at 0 irrelevant). -/
def next_power_of_2 (n : ℕ) : ℕ := 2 ^ clog2 n

/-- `block_size = max(triton.next_power_of_2(n_cols), 2)`
(ops.py lines 75 and 331). -/
def softmax_block_size (n_cols : ℕ) : ℕ := max (next_power_of_2 n_cols) 2

/-- Warp-count bucketing of the small-case softmax dispatch
(ops.py lines 76-82, identically 332-338: the initial assignment there is
overwritten by every branch of the if/elif/else chain). -/
def softmax_num_warps (n_cols : ℕ) : ℕ :=
  let block_size := softmax_block_size n_cols
  if block_size ≥ 4096 then 16
  else if block_size ≥ 2048 then 8
  else 4

/-! ## Standalone softmax dispatch (ops.py lines 318-366) -/

/-- Names bound at module scope in ops.py: the imports at lines 3-5 and 16-17
together with the four functions the module itself defines.  The large-row
branch of `softmax` (line 356) refers to `softmax_kernel_2`, which is not
among them. -/
inductive PyName where
  | torch | nn | F | triton | tl | HAS_TRITON
  | qkv_gemm_4d_kernel | qkv_gemm_4d_kernel_alibi | softmax_kernel
  | self_attention_forward_without_fusion | compute_attention_for_bloom
  | self_attention_compute_using_triton | softmax
  | softmax_kernel_2
deriving DecidableEq

/-- The module-scope namespace of ops.py (everything assigned or imported at
module level; `softmax_kernel_2` is absent because line 17 imports only
`softmax_kernel`). -/
def ops_module_names : List PyName :=
  [PyName.torch, PyName.nn, PyName.F, PyName.triton, PyName.tl,
   PyName.HAS_TRITON, PyName.qkv_gemm_4d_kernel,
   PyName.qkv_gemm_4d_kernel_alibi, PyName.softmax_kernel,
   PyName.self_attention_forward_without_fusion,
   PyName.compute_attention_for_bloom,
   PyName.self_attention_compute_using_triton, PyName.softmax]

/-- Outcome of the standalone softmax dispatch: either a kernel launch with
its launch parameters, or a Python name-resolution failure. -/
inductive SoftmaxLaunch where
  | kernelOneBlockPerRow (num_warps block_size : ℕ) : SoftmaxLaunch
  | kernelRowBands (block_m block_size : ℕ) : SoftmaxLaunch
  | nameLookupFailure : SoftmaxLaunch
deriving DecidableEq

/-- Standalone `softmax` dispatch (ops.py lines 330-364).  Rows up to 350000
launch `softmax_kernel`, one block per row, with the bucketed warp count.
Beyond the threshold the code would launch `softmax_kernel_2` in row bands
(line 363 passes the literal `BLOCK_M = 32`; the width-bucketed value computed
at lines 350-354 is never used), but `softmax_kernel_2` does not resolve in
the module namespace, so Python raises `NameError` before any launch. -/
def softmax_dispatch (num_rows num_cols : ℕ) : SoftmaxLaunch :=
  let block_size := softmax_block_size num_cols
  if num_rows ≤ 350000 then
    SoftmaxLaunch.kernelOneBlockPerRow (softmax_num_warps num_cols) block_size
  else if PyName.softmax_kernel_2 ∈ ops_module_names then
    SoftmaxLaunch.kernelRowBands 32 block_size
  else SoftmaxLaunch.nameLookupFailure

/-! ## Flow A softmax stage configuration (ops.py lines 73-97) -/

/-- How the softmax stage of a flow is invoked: whether the fused triton
kernel is used, whether the caller-supplied mask reaches the computation, and
whether an explicit promotion of the reduction to float32 is requested. -/
structure SoftmaxStageCall where
  uses_triton_kernel : Bool
  mask_applied : Bool
  promoted_to_float32 : Bool
deriving DecidableEq

/-- Softmax stage of `self_attention_forward_without_fusion`
(ops.py lines 73-97), keyed by the flattened row count.  The fused branch
(lines 84-92) launches `softmax_kernel` with `mask_ptr = input_mask`; the
fallback branch (line 96) calls `torch.nn.functional.softmax(score, dim=-1)`
with no mask argument and no `dtype` promotion argument. -/
def flowA_softmax_stage (n_rows : ℕ) : SoftmaxStageCall :=
  if n_rows ≤ 350000 then
    { uses_triton_kernel := true, mask_applied := true,
      promoted_to_float32 := false }
  else
    { uses_triton_kernel := false, mask_applied := false,
      promoted_to_float32 := false }

/-! ## Bloom flow dtype bookkeeping (ops.py lines 204-243) -/

/-- Floating-point storage dtypes appearing in the orchestrator (line 206
tests for float16 only). -/
inductive DType where
  | float16 | float32
deriving DecidableEq

/-- Promotion at ops.py lines 204-207: a float16 score matrix is cast to
float32 before masking; anything else keeps its dtype. -/
def promote_if_fp16 (d : DType) : DType :=
  if d = DType.float16 then DType.float32 else d

/-- Modelled from the spec: accumulation-precision contract of the softmax
kernel (`softmax_kernel.py` is absent from the sources).  The kernel
accumulates in a precision no lower than its input, promoting a narrow
(half-precision) input to float32 for the reduction. -/
def kernel_accum_dtype (d : DType) : DType :=
  if d = DType.float16 then DType.float32 else d

/-- Dtype trace of the bloom softmax stage: the dtype at which the optional
mask fill happens, the dtype of the tensor handed to the softmax computation,
and the accumulation dtype of that computation. -/
structure BloomSoftmaxPrecision where
  mask_fill_dtype : DType
  softmax_input_dtype : DType
  softmax_accum_dtype : DType
deriving DecidableEq

/-- Dtype flow of `compute_attention_for_bloom` around its softmax stage
(ops.py lines 204-243).  Scores promoted at lines 206-207 are masked at the
promoted dtype (line 210).  The fused branch casts the scores back to the
input dtype (line 215) before launching `softmax_kernel`; the fallback branch
(line 243) calls `F.softmax(..., dtype=torch.float32)` on the still-promoted
scores and casts the result back. -/
def bloom_softmax_precision (input_dtype : DType) (rows : ℕ) :
    BloomSoftmaxPrecision :=
  let work := promote_if_fp16 input_dtype
  if rows ≤ 350000 then
    { mask_fill_dtype := work, softmax_input_dtype := input_dtype,
      softmax_accum_dtype := kernel_accum_dtype input_dtype }
  else
    { mask_fill_dtype := work, softmax_input_dtype := work,
      softmax_accum_dtype := DType.float32 }

/-! ## Block-tiled batched GEMM (call sites at ops.py lines 52-64, 112-132,
185-199, 265-285; kernel file `qkv_matmul_kernel.py` absent from src/) -/

/-- A 4-dimensional tensor as an index function into exact rationals. -/
abbrev T4 := ℕ → ℕ → ℕ → ℕ → ℚ

/-- A 4-dimensional boolean tensor. -/
abbrev T4B := ℕ → ℕ → ℕ → ℕ → Bool

/-- A 3-dimensional tensor. -/
abbrev T3 := ℕ → ℕ → ℕ → ℚ

/-- Modelled from the spec: index-level contract of the block-tiled batched
GEMM kernel (`qkv_gemm_4d_kernel`, file `qkv_matmul_kernel.py` absent from
src/): `C[b,h,i,j] = scale * Σ_c A[b,h,i,c] * B[b,h,j,c]`, where a scale of
exactly -1 is the sentinel meaning that no scaling is applied at all.  Stride
permutations at the call sites are rendered as index permutations of the
operand functions, per the design note that callers present logically
permuted views. -/
def qkv_gemm_4d (A B : T4) (Kdim : ℕ) (scale : ℚ) : T4 :=
  fun b h i j =>
    let acc := Finset.sum (Finset.range Kdim) (fun c => A b h i c * B b h j c)
    if scale = -1 then acc else scale * acc

/-- The plain unscaled batched matrix product, written from the words of the
claim: `sum_k A[b,h,i,k] * B[b,h,j,k]` with no scalar multiplication. -/
def plain_matmul_4d (A B : T4) (Kdim : ℕ) : T4 :=
  fun b h i j =>
    Finset.sum (Finset.range Kdim) (fun c => A b h i c * B b h j c)

/-! ## Softmax kernel semantics (file `softmax_kernel.py` absent from src/) -/

/-- Row-wise numerically stable softmax over the first `ncols` entries of a
row: subtract the row maximum, exponentiate, normalize.  The exponential is
passed as a parameter because the real exponential has no exact rational
form; every result below holds for an arbitrary `e`. -/
def softmax_row (e : ℚ → ℚ) (ncols : ℕ) (row : ℕ → ℚ) (j : ℕ) : ℚ :=
  let mx := ((List.range ncols).map row).foldr max (row 0)
  let s := Finset.sum (Finset.range ncols) (fun c => e (row c - mx))
  e (row j - mx) / s

/-- Modelled from the spec: the row-wise softmax kernel (`softmax_kernel`,
file `softmax_kernel.py` absent from src/).  A non-null mask excludes the
masked positions from the max reduction and from the sum; the value written
at a masked position is implementation-defined and modelled as 0.  Only the
unmasked form (mask_ptr = None, as passed by the bloom flow at line 237) is
exercised below. -/
def softmax_kernel_row (e : ℚ → ℚ) (ncols : ℕ) (mask : Option (ℕ → Bool))
    (row : ℕ → ℚ) (j : ℕ) : ℚ :=
  match mask with
  | none => softmax_row e ncols row j
  | some mk =>
    let kept := (List.range ncols).filter (fun c => !(mk c))
    let mx := (kept.map row).foldr max (row 0)
    let s := (kept.map (fun c => e (row c - mx))).sum
    if mk j then 0 else e (row j - mx) / s

/-! ## Dropout (host tensor library, ops.py lines 245-246) -/

/-- Modelled from the spec: the host tensor library dropout, a black box with
standard semantics.  In training mode each position where the Bernoulli
sample `drop` fires is zeroed and the rest are rescaled by `1 / (1 - p)`;
with `training = false` (the only form this module calls, line 246) the input
is returned unchanged.  The trailing flag is the in-place flag, irrelevant to
values. -/
def F_dropout (drop : T4B) (x : T4) (p : ℚ) (training : Bool)
    (inplace : Bool) : T4 :=
  if training then
    fun b h i j => if drop b h i j then 0 else x b h i j / (1 - p)
  else x

/-- Dropout stage of `compute_attention_for_bloom` (ops.py lines 245-246):
the guard is `drop_out > 0 and drop_out < 1`; when it holds the stage calls
`F.dropout(softmax_output, drop_out, False, False)`.  The boolean component
records whether the branch was taken. -/
def bloom_dropout_stage (drop : T4B) (p : ℚ) (x : T4) : T4 × Bool :=
  if 0 < p ∧ p < 1 then (F_dropout drop x p false false, true)
  else (x, false)

/-! ## Flow A shape preconditions (ops.py lines 31-35) -/

/-- The assertion prologue of `self_attention_forward_without_fusion`
(ops.py lines 31-35), over the shapes of q, k, v, in source order. -/
def flowA_shape_check (qs ks vs : List ℕ) : Except String Unit :=
  if qs.length ≠ 4 then Except.error "the shape of q val must be 4"
  else if qs ≠ ks then
    Except.error "the shape of q and the shape of k must be equal"
  else if qs ≠ vs then
    Except.error "the shape of q and the shape of v must be equal"
  else if qs.getLast? ≠ ks.getLast? then
    Except.error "the last dimension of q and k must be equal"
  else Except.ok ()

/-! ## Packed-QKV entry preconditions (ops.py lines 299-300) -/

/-- The assertion prologue of `self_attention_compute_using_triton`
(ops.py lines 299-300): a contiguity assert (bare, no message) followed by
the alibi rejection. -/
def self_attention_compute_check {α : Type} (qkv_contiguous : Bool)
    (alibi : Option α) : Except String Unit :=
  if !qkv_contiguous then Except.error "AssertionError"
  else if alibi.isSome then
    Except.error "current triton self-attention does not support alibi"
  else Except.ok ()

/-! ## Bloom attention, value level (ops.py lines 135-287) -/

/-- The finite minimum of a floating-point dtype
(`torch.finfo(dtype).min`, used at ops.py line 210): -65504 for float16 and
-(2 - 2 ^ -23) * 2 ^ 127 for float32, written as an exact rational. -/
def finfo_min : DType → ℚ
  | DType.float16 => -65504
  | DType.float32 => -((2 ^ 24 - 1) * 2 ^ 104)

/-- `compute_attention_for_bloom` (ops.py lines 135-287) at exact-rational
value level.  Dimensions: q is (batches, H, M, Kdim); k is
(batches, H, Kdim, N), so N = k.shape[-1] (line 169); v is
(batches, H, N, headSize); alibi is already broadcast to (batches, H, M, N)
(the `expand` at line 176 is the identity on index functions).  The dtype
promotions and casts back at lines 204-215, 243, 246 and 250 are value
preserving here; the dtype flow itself is tracked by
`bloom_softmax_precision`.  The GEMM and softmax kernels are the
spec-modelled `qkv_gemm_4d` and `softmax_kernel_row`, their stride arguments
rendered as index permutations; `e` and `drop` parameterize the exponential
and the dropout samples.  The trailing `layer_past` and `use_cache`
parameters are accepted exactly as at lines 144-145. -/
def compute_attention_for_bloom (e : ℚ → ℚ) (drop : T4B)
    (batches H M Kdim N headSize : ℕ) (input_dtype : DType)
    (q k v alibi : T4) (beta scale : ℚ)
    (attention_mask : Option T4B) (drop_out : ℚ) (head_mask : Option T4)
    (layer_past : Option (T4 × T4)) (use_cache : Bool) : T3 :=
  -- lines 185-199: GEMM stage 1 over the head dimension, scaled
  let score0 : T4 := qkv_gemm_4d q (fun b h j c => k b h c j) Kdim scale
  -- line 201: score_output += beta * alibi
  let score1 : T4 := fun b h i j => score0 b h i j + beta * alibi b h i j
  -- lines 204-207: float16 scores are promoted to float32 before masking
  let work_dtype := if input_dtype = DType.float16 then DType.float32
                    else input_dtype
  -- lines 209-210: optional exclusion mask forces the dtype minimum
  let score2 : T4 :=
    match attention_mask with
    | none => score1
    | some m => fun b h i j =>
        if m b h i j then finfo_min work_dtype else score1 b h i j
  -- lines 212-243: softmax dispatch on batches * H * M
  let softmax_output : T4 :=
    if batches * H * M ≤ 350000 then
      fun b h i j => softmax_kernel_row e N none (score2 b h i) j
    else
      fun b h i j => softmax_row e N (score2 b h i) j
  -- lines 245-246: dropout, called with training = False
  let softmax_output2 : T4 :=
    if 0 < drop_out ∧ drop_out < 1 then
      F_dropout drop softmax_output drop_out false false
    else softmax_output
  -- lines 248-250: optional per-head multiplicative mask
  let softmax_output3 : T4 :=
    match head_mask with
    | none => softmax_output2
    | some hm => fun b h i j => softmax_output2 b h i j * hm b h i j
  -- lines 252-287: GEMM stage 2 with the scale = -1 sentinel, reduction over
  -- the key length; the output is written at (b, i, h, j) through the
  -- permuted strides and then viewed as (batches, M, H * headSize)
  let ctx : T4 := qkv_gemm_4d softmax_output3 (fun b h j c => v b h c j) N (-1)
  fun b s f => ctx b (f / headSize) s (f % headSize)

/-! ## Standalone softmax mask precondition (ops.py lines 318-320) -/

/-- Indexing a tensor with `[-1]`: drops the leading axis, raising IndexError
on a 0-dimensional tensor or an empty leading axis. -/
def py_slice_last_shape (shape : List ℕ) : Except String (List ℕ) :=
  match shape with
  | [] => Except.error "IndexError: invalid index of a 0-dim tensor"
  | d :: rest =>
    if d = 0 then
      Except.error "IndexError: index -1 is out of bounds for dimension 0"
    else Except.ok rest

/-- Elementwise broadcasting of one axis pair (host tensor library rule):
equal extents, or one of them 1. -/
def broadcast_dim (a b : ℕ) : Option ℕ :=
  if a = b then some a
  else if a = 1 then some b
  else if b = 1 then some a
  else none

/-- Broadcasting of two shapes given in reversed (innermost-first) order. -/
def broadcast_rev : List ℕ → List ℕ → Option (List ℕ)
  | [], t => some t
  | a :: s, [] => some (a :: s)
  | a :: s, b :: t =>
    (broadcast_dim a b).bind
      (fun d => (broadcast_rev s t).map (fun r => d :: r))

/-- Host tensor library shape broadcasting (axes aligned from the right). -/
def broadcast_shapes (s t : List ℕ) : Option (List ℕ) :=
  (broadcast_rev s.reverse t.reverse).map List.reverse

/-- The masked-call precondition of the standalone `softmax`
(ops.py line 320): `assert input[-1] == mask[-1]` slices both tensors,
compares them elementwise (an operation that broadcasts and yields a tensor),
and then asks Python for the truth value of that tensor, which is only
defined when it has exactly one element.  Shapes suffice to decide whether
this raises. -/
def softmax_mask_precheck (input_shape mask_shape : List ℕ) :
    Except String Unit :=
  match py_slice_last_shape input_shape with
  | Except.error msg => Except.error msg
  | Except.ok s =>
    match py_slice_last_shape mask_shape with
    | Except.error msg => Except.error msg
    | Except.ok t =>
      match broadcast_shapes s t with
      | none =>
        Except.error "RuntimeError: the size of tensor a must match the size of tensor b"
      | some r =>
        if r.prod = 1 then Except.ok ()
        else
          Except.error "RuntimeError: Boolean value of Tensor with more than one element is ambiguous"

/-! ## Helper lemmas -/

/-- Characterization of the fuel-driven ceiling log: with enough fuel,
`clog2Fuel fuel n ≤ e` exactly when `n ≤ 2 ^ e`. -/
theorem clog2Fuel_le_iff (fuel : ℕ) :
    ∀ n e, n ≤ fuel → (clog2Fuel fuel n ≤ e ↔ n ≤ 2 ^ e) := by
  induction fuel with
  | zero =>
    intro n e hn
    have hn0 : n = 0 := Nat.le_zero.mp hn
    subst hn0
    simp [clog2Fuel]
  | succ fuel ih =>
    intro n e hn
    by_cases h1 : n ≤ 1
    · have : clog2Fuel (fuel + 1) n = 0 := by simp [clog2Fuel, h1]
      rw [this]
      constructor
      · intro _
        exact le_trans h1 (Nat.one_le_two_pow)
      · intro _
        exact Nat.zero_le e
    · have hstep : clog2Fuel (fuel + 1) n = clog2Fuel fuel ((n + 1) / 2) + 1 := by
        simp [clog2Fuel, h1]
      rw [hstep]
      cases e with
      | zero =>
        simp only [Nat.pow_zero]
        omega
      | succ e =>
        have hf : (n + 1) / 2 ≤ fuel := by omega
        rw [Nat.add_le_add_iff_right, ih ((n + 1) / 2) e hf]
        have hp : 2 ^ (e + 1) = 2 * 2 ^ e := by
          rw [Nat.pow_succ]; ring
        rw [hp]
        omega

/-- `clog2 n` is the least exponent covering `n`. -/
theorem clog2_le_iff (n e : ℕ) : clog2 n ≤ e ↔ n ≤ 2 ^ e :=
  clog2Fuel_le_iff n n e le_rfl

/-- A successful broadcast whose result has a single element can only come
from a left operand with a single element. -/
theorem broadcast_rev_prod_one :
    ∀ s t r, broadcast_rev s t = some r → r.prod = 1 → s.prod = 1 := by
  intro s
  induction s with
  | nil =>
    intro t r _ _
    simp
  | cons a s ih =>
    intro t r heq hr
    cases t with
    | nil =>
      simp only [broadcast_rev, Option.some.injEq] at heq
      rw [← heq] at hr
      exact hr
    | cons b t =>
      simp only [broadcast_rev] at heq
      cases hd : broadcast_dim a b with
      | none => rw [hd] at heq; simp at heq
      | some d =>
        rw [hd] at heq
        simp only [Option.bind_eq_bind, Option.some_bind] at heq
        cases hrec : broadcast_rev s t with
        | none => rw [hrec] at heq; simp at heq
        | some r2 =>
          rw [hrec] at heq
          simp only [Option.map_some', Option.some.injEq] at heq
          rw [← heq] at hr
          simp only [List.prod_cons] at hr
          have hd1 : d = 1 ∧ r2.prod = 1 :=
            ⟨Nat.eq_one_of_mul_eq_one_right hr,
             Nat.eq_one_of_mul_eq_one_left hr⟩
          have ha : a = 1 := by
            unfold broadcast_dim at hd
            split_ifs at hd with hab ha1 hb1
            · have : a = d := Option.some.inj hd
              omega
            · exact ha1
            · have : a = d := Option.some.inj hd
              omega
          have hs : s.prod = 1 := ih t r2 hrec hd1.2
          simp [List.prod_cons, ha, hs]

/-! ## Claim theorems -/

/-- C1: the claim states that the standalone softmax output of the
large-row-count path (num_rows > 350000) equals the output of the
small-row-count path on identical data.  In the code the large path cannot
produce output at all: at 350001 rows the dispatch reaches the reference to
`softmax_kernel_2`, a name absent from the module namespace, and Python
raises NameError before any kernel launch, while at 350000 rows the per-row
kernel is launched as usual. -/
theorem softmax_large_path_name_error :
    softmax_dispatch 350001 128 = SoftmaxLaunch.nameLookupFailure ∧
    softmax_dispatch 350000 128 = SoftmaxLaunch.kernelOneBlockPerRow 4 128 := by
  constructor <;> decide

/-- C2: the claim states that beyond 350000 flattened rows, plain
self-attention falls back to a generic softmax that still applies the
optional mask and explicitly promotes the reduction to a wider float.  In
the code the fallback (ops.py line 96) calls the generic softmax with
neither a mask argument nor a dtype argument, while the fused branch one row
earlier passes the mask to the kernel; the supplied mask is silently
dropped. -/
theorem flowA_fallback_drops_mask :
    flowA_softmax_stage 350001 =
      { uses_triton_kernel := false, mask_applied := false,
        promoted_to_float32 := false } ∧
    flowA_softmax_stage 350000 =
      { uses_triton_kernel := true, mask_applied := true,
        promoted_to_float32 := false } := by
  constructor <;> decide

/-- C3 counterexample: the claim states that for float16 inputs the bloom
softmax stage operates on the float32-promoted scores on both paths; but on
the fused path (rows = 1024 ≤ 350000) the scores are cast back to float16 at
ops.py line 215 before the kernel launch, so the softmax input dtype is
float16, not float32. -/
theorem bloom_fused_softmax_input_not_promoted :
    (bloom_softmax_precision DType.float16 1024).softmax_input_dtype
        = DType.float16 ∧
    (bloom_softmax_precision DType.float16 1024).softmax_input_dtype
        ≠ DType.float32 := by
  constructor <;> decide

/-- C3 amended: for float16 inputs the scores are promoted to float32 before
masking on every path; on the fallback path the softmax operates on the
promoted values and accumulates in float32; on the fused path the promoted
scores are cast back to float16 before the softmax kernel, which receives
half-precision values and (per the spec-modelled kernel contract) promotes
them again internally for the accumulation. -/
theorem bloom_softmax_precision_amended (rows : ℕ) :
    (bloom_softmax_precision DType.float16 rows).mask_fill_dtype
        = DType.float32 ∧
    (rows ≤ 350000 →
      (bloom_softmax_precision DType.float16 rows).softmax_input_dtype
          = DType.float16 ∧
      (bloom_softmax_precision DType.float16 rows).softmax_accum_dtype
          = DType.float32) ∧
    (350000 < rows →
      (bloom_softmax_precision DType.float16 rows).softmax_input_dtype
          = DType.float32 ∧
      (bloom_softmax_precision DType.float16 rows).softmax_accum_dtype
          = DType.float32) := by
  by_cases h : rows ≤ 350000
  · have e1 : bloom_softmax_precision DType.float16 rows =
        { mask_fill_dtype := DType.float32,
          softmax_input_dtype := DType.float16,
          softmax_accum_dtype := DType.float32 } := by
      simp [bloom_softmax_precision, promote_if_fp16, kernel_accum_dtype, h]
    rw [e1]
    exact ⟨rfl, fun _ => ⟨rfl, rfl⟩, fun hlt => absurd h (by omega)⟩
  · have e1 : bloom_softmax_precision DType.float16 rows =
        { mask_fill_dtype := DType.float32,
          softmax_input_dtype := DType.float32,
          softmax_accum_dtype := DType.float32 } := by
      simp [bloom_softmax_precision, promote_if_fp16, kernel_accum_dtype, h]
    rw [e1]
    exact ⟨rfl, fun hle => absurd hle h, fun _ => ⟨rfl, rfl⟩⟩

/-- Witness for the amended C3 statement, at 1024 rows (fused) and 350001
rows (fallback). -/
theorem bloom_softmax_precision_amended_witness :
    (bloom_softmax_precision DType.float16 1024).mask_fill_dtype
        = DType.float32 ∧
    (bloom_softmax_precision DType.float16 1024).softmax_accum_dtype
        = DType.float32 ∧
    (bloom_softmax_precision DType.float16 350001).softmax_input_dtype
        = DType.float32 :=
  ⟨(bloom_softmax_precision_amended 1024).1,
   ((bloom_softmax_precision_amended 1024).2.1 (by decide)).2,
   ((bloom_softmax_precision_amended 350001).2.2 (by decide)).1⟩

/-- C4: invoking the GEMM kernel with the scale sentinel -1 yields exactly
the plain unscaled matrix product `sum_k A[b,h,i,k] * B[b,h,j,k]`, for all
operands and dimensions. -/
theorem qkv_gemm_scale_sentinel (A B : T4) (Kdim : ℕ) :
    qkv_gemm_4d A B Kdim (-1) = plain_matmul_4d A B Kdim := by
  funext b h i j
  simp [qkv_gemm_4d, plain_matmul_4d]

/-- C5: in the bloom flow the dropout transform is invoked exactly when the
drop probability lies strictly between 0 and 1, and a probability of exactly
0 or exactly 1 bypasses the transform, leaving the softmax output
unchanged. -/
theorem bloom_dropout_applied_iff (drop : T4B) (p : ℚ) (x : T4) :
    ((bloom_dropout_stage drop p x).2 = true ↔ (0 < p ∧ p < 1)) ∧
    ((p = 0 ∨ p = 1) → (bloom_dropout_stage drop p x).1 = x) := by
  constructor
  · unfold bloom_dropout_stage
    split_ifs with h <;> simp [h]
  · intro hp
    have hcond : ¬ (0 < p ∧ p < 1) := by
      rcases hp with h | h <;> subst h <;> simp
    simp [bloom_dropout_stage, hcond]

/-- Witness for C5 at the boundary probability 0. -/
theorem bloom_dropout_boundary_witness :
    (bloom_dropout_stage (fun _ _ _ _ => true) 0 (fun _ _ _ _ => 1)).1
        = (fun _ _ _ _ => (1 : ℚ)) ∧
    ((bloom_dropout_stage (fun _ _ _ _ => true) 0 (fun _ _ _ _ => 1)).2 = true
        ↔ (0 < (0 : ℚ) ∧ (0 : ℚ) < 1)) :=
  ⟨(bloom_dropout_applied_iff (fun _ _ _ _ => true) 0 (fun _ _ _ _ => 1)).2
      (Or.inl rfl),
   (bloom_dropout_applied_iff (fun _ _ _ _ => true) 0 (fun _ _ _ _ => 1)).1⟩

/-- C6: plain self-attention rejects, with a descriptive error and no
output, every call in which some operand is not rank-4 or Q and K do not
share an identical shape (the assertion prologue at ops.py lines 31-35 fires
before any computation). -/
theorem flowA_shape_check_rejects (qs ks vs : List ℕ)
    (h : qs.length ≠ 4 ∨ ks.length ≠ 4 ∨ vs.length ≠ 4 ∨ qs ≠ ks) :
    ∃ msg, flowA_shape_check qs ks vs = Except.error msg := by
  unfold flowA_shape_check
  split_ifs with h1 h2 h3 h4
  · exact ⟨_, rfl⟩
  · exact ⟨_, rfl⟩
  · exact ⟨_, rfl⟩
  · exact ⟨_, rfl⟩
  · exfalso
    have hq4 : qs.length = 4 := by
      by_contra hc
      exact h1 hc
    have hqk : qs = ks := by
      by_contra hc
      exact h2 hc
    have hqv : qs = vs := by
      by_contra hc
      exact h3 hc
    rcases h with h | h | h | h
    · exact h hq4
    · exact h (hqk ▸ hq4)
    · exact h (hqv ▸ hq4)
    · exact h hqk

/-- Witness for C6 at the concrete shapes of the claim: Q of shape
(1,4,2,8) against K of shape (1,4,2,7) is rejected. -/
theorem flowA_shape_check_witness :
    ∃ msg, flowA_shape_check [1, 4, 2, 8] [1, 4, 2, 7] [1, 4, 2, 8]
        = Except.error msg :=
  flowA_shape_check_rejects [1, 4, 2, 8] [1, 4, 2, 7] [1, 4, 2, 8]
    (Or.inr (Or.inr (Or.inr (by decide))))

/-- C8: every call to the packed-QKV plain-attention entry point with a
non-null alibi argument raises an error and computes nothing; when the
contiguity precondition that precedes it holds, the error is the message
identifying the unsupported alibi combination (ops.py lines 299-300). -/
theorem self_attention_rejects_alibi {α : Type} (contig : Bool)
    (alibi : Option α) (h : alibi.isSome = true) :
    (∃ msg, self_attention_compute_check contig alibi = Except.error msg) ∧
    (contig = true →
      self_attention_compute_check contig alibi
        = Except.error "current triton self-attention does not support alibi") := by
  cases alibi with
  | none => exact absurd h (by simp)
  | some a =>
    cases contig with
    | false => exact ⟨⟨_, rfl⟩, fun hc => Bool.noConfusion hc⟩
    | true => exact ⟨⟨_, rfl⟩, fun _ => rfl⟩

/-- Witness for C8: a contiguous packed QKV with a supplied alibi is
rejected with the unsupported-combination message. -/
theorem self_attention_rejects_alibi_witness :
    self_attention_compute_check true (some (0 : ℕ))
      = Except.error "current triton self-attention does not support alibi" :=
  (self_attention_rejects_alibi true (some (0 : ℕ)) rfl).2 rfl

/-- C9: the output of the bloom attention flow does not depend on the
layer_past and use_cache arguments: two calls differing only in those two
arguments return identical tensors, for every exponential, dropout sample,
dimension set, operand, scalar, mask and dtype. -/
theorem bloom_output_independent_of_cache_args (e : ℚ → ℚ) (drop : T4B)
    (batches H M Kdim N headSize : ℕ) (input_dtype : DType)
    (q k v alibi : T4) (beta scale : ℚ) (attention_mask : Option T4B)
    (drop_out : ℚ) (head_mask : Option T4)
    (lp lp2 : Option (T4 × T4)) (uc uc2 : Bool) :
    compute_attention_for_bloom e drop batches H M Kdim N headSize
        input_dtype q k v alibi beta scale attention_mask drop_out head_mask
        lp uc
      = compute_attention_for_bloom e drop batches H M Kdim N headSize
        input_dtype q k v alibi beta scale attention_mask drop_out head_mask
        lp2 uc2 := rfl

/-- C10: the masked standalone softmax raises before any computation
whenever the slice input[-1] has more than one element: the precondition
compares input[-1] to mask[-1] elementwise and takes the truth value of the
resulting tensor, which Python only defines for a single element. -/
theorem softmax_mask_precheck_rejects (input_shape mask_shape : List ℕ)
    (h : 1 < (input_shape.drop 1).prod) :
    ∃ msg, softmax_mask_precheck input_shape mask_shape
        = Except.error msg := by
  unfold softmax_mask_precheck
  split
  · exact ⟨_, rfl⟩
  · rename_i s hs
    have hsrest : s = input_shape.drop 1 := by
      cases input_shape with
      | nil => simp [py_slice_last_shape] at hs
      | cons d rest =>
        simp only [py_slice_last_shape] at hs
        split_ifs at hs with hd
        simp only [List.drop_succ_cons, List.drop_zero]
        exact (Except.ok.inj hs).symm
    split
    · exact ⟨_, rfl⟩
    · rename_i t ht
      split
      · exact ⟨_, rfl⟩
      · rename_i r hr
        have hrne : r.prod ≠ 1 := by
          intro hone
          unfold broadcast_shapes at hr
          cases hbr : broadcast_rev s.reverse t.reverse with
          | none => rw [hbr] at hr; simp at hr
          | some r2 =>
            rw [hbr] at hr
            simp only [Option.map_some', Option.some.injEq] at hr
            have hr2 : r2.prod = 1 := by
              rw [← hr] at hone
              rwa [List.prod_reverse] at hone
            have hsp : s.reverse.prod = 1 :=
              broadcast_rev_prod_one s.reverse t.reverse r2 hbr hr2
            rw [List.prod_reverse, hsrest] at hsp
            omega
        rw [if_neg hrne]
        exact ⟨_, rfl⟩

/-- Witness for C10: a masked standalone softmax on a (3,4) input with a
(3,4) mask is rejected, since input[-1] has 4 elements. -/
theorem softmax_mask_precheck_witness :
    ∃ msg, softmax_mask_precheck [3, 4] [3, 4] = Except.error msg :=
  softmax_mask_precheck_rejects [3, 4] [3, 4] (by decide)

/-- C7 counterexample: the claim states that rows of up to 2048 columns get
4-way parallelism; but the code buckets on the power-of-two padded block
size, so a row of 2000 columns (padded to 2048) already gets 8 warps. -/
theorem softmax_num_warps_counterexample :
    2000 ≤ 2048 ∧ softmax_num_warps 2000 = 8 ∧ softmax_num_warps 2000 ≠ 4 := by
  refine ⟨by decide, ?_, ?_⟩ <;> decide

/-- C7 amended: the 4/8/16 warp buckets of the small-case softmax dispatch
are selected by the thresholds 2048 and 4096 applied to the power-of-two
padded block size, equivalently by column-count thresholds 1024 and 2048:
at most 1024 columns get 4 warps, 1025 to 2048 columns get 8 warps, and more
than 2048 columns get 16 warps. -/
theorem softmax_num_warps_buckets (n : ℕ) :
    (n ≤ 1024 → softmax_num_warps n = 4) ∧
    (1024 < n → n ≤ 2048 → softmax_num_warps n = 8) ∧
    (2048 < n → softmax_num_warps n = 16) := by
  refine ⟨?_, ?_, ?_⟩
  · intro h
    have hc : clog2 n ≤ 10 := (clog2_le_iff n 10).mpr (by norm_num; omega)
    have hp : next_power_of_2 n ≤ 1024 := by
      calc 2 ^ clog2 n ≤ 2 ^ 10 := Nat.pow_le_pow_right (by norm_num) hc
        _ = 1024 := by norm_num
    have hb : softmax_block_size n < 2048 :=
      lt_of_le_of_lt (max_le hp (by norm_num)) (by norm_num)
    simp only [softmax_num_warps]
    split_ifs with h1 h2 <;> omega
  · intro hgt hle
    have hc1 : clog2 n ≤ 11 := (clog2_le_iff n 11).mpr (by norm_num; omega)
    have hc2 : ¬ clog2 n ≤ 10 := by
      intro hc
      have := (clog2_le_iff n 10).mp hc
      norm_num at this
      omega
    have hc : clog2 n = 11 := by omega
    have hp : next_power_of_2 n = 2048 := by
      simp only [next_power_of_2, hc]
      norm_num
    have hb : softmax_block_size n = 2048 := by
      simp only [softmax_block_size, hp]
      norm_num
    simp only [softmax_num_warps]
    split_ifs with h1 h2 <;> omega
  · intro hgt
    have hc : ¬ clog2 n ≤ 11 := by
      intro hc
      have := (clog2_le_iff n 11).mp hc
      norm_num at this
      omega
    have hp : 4096 ≤ next_power_of_2 n := by
      calc (4096 : ℕ) = 2 ^ 12 := by norm_num
        _ ≤ 2 ^ clog2 n := Nat.pow_le_pow_right (by norm_num) (by omega)
    have hb : 4096 ≤ softmax_block_size n :=
      le_trans hp (le_max_left _ _)
    simp only [softmax_num_warps]
    split_ifs with h1 h2 <;> omega

/-- Witness for the amended C7 bucketing at 500, 2000 and 5000 columns. -/
theorem softmax_num_warps_buckets_witness :
    softmax_num_warps 500 = 4 ∧ softmax_num_warps 2000 = 8 ∧
    softmax_num_warps 5000 = 16 :=
  ⟨(softmax_num_warps_buckets 500).1 (by decide),
   (softmax_num_warps_buckets 2000).2.1 (by decide) (by decide),
   (softmax_num_warps_buckets 5000).2.2 (by decide)⟩
